import Mathlib

/-
Verification of the spatial-selection module of pyfesom2 (src/pyfesom2/accessor.py).

The module selects subsets of data on an unstructured triangular mesh.  The
definitions below are a shallow embedding of the functions `normalize_distance`,
`select_bbox`, `select_region` and `select` of accessor.py.  Numpy arrays are
embedded as Lists, machine floats as rationals, boolean masks as List Bool,
and the numpy index arithmetic (np.unique with return_inverse, boolean mask
indexing, np.all(axis=1)) as explicit list operations.
-/

namespace Pyfesom2

/-- A face of the mesh: a triple of node indices (one row of the faces array). -/
abbrev Face := Nat × Nat × Nat

/-- The raveled faces array: cut_faces.ravel() in accessor.py line 132/177,
row-major traversal of the (nelem, 3) array. -/
def facesFlat : List Face → List Nat
  | [] => []
  | f :: r => f.1 :: f.2.1 :: f.2.2 :: facesFlat r

/-- The sorted duplicate-free list of values occurring in l: the first result of
np.unique(l) (accessor.py lines 132 and 177).  np.unique returns the sorted
unique values, here obtained by filtering the ascending range up to the maximum. -/
def sortedUnique (l : List Nat) : List Nat :=
  (List.range (l.foldr max 0 + 1)).filter (fun x => decide (x ∈ l))

/-- Remap one face through the unique-value list: the inverse indices of
np.unique(..., return_inverse=True) give, for each entry, its position in the
sorted unique list; reshape restores the (nelem, 3) shape (lines 132-133, 177-178). -/
def remapFace (uniq : List Nat) (f : Face) : Face :=
  (uniq.indexOf f.1, uniq.indexOf f.2.1, uniq.indexOf f.2.2)

/-- uniq of accessor.py lines 132/177: sorted unique global node indices used by
the retained faces. -/
def reindexNodes (cf : List Face) : List Nat := sortedUnique (facesFlat cf)

/-- new_faces of accessor.py lines 133/178: the faces array with every global
node index replaced by its position in reindexNodes. -/
def reindexFaces (cf : List Face) : List Face := cf.map (remapFace (reindexNodes cf))

/-- Decode a remapped face back to global indices by looking its entries up in
the unique-node list: uniq[new_faces] in numpy notation. -/
def decodeFace (uniq : List Nat) (f : Face) : Face :=
  (uniq.getD f.1 0, uniq.getD f.2.1 0, uniq.getD f.2.2 0)

/-- Result assembled by select_bbox after cut_region (accessor.py lines 131-137):
the node dimension is indexed by uniq and the faces coordinate is the remapped
faces array. -/
structure SelResult where
  nodeIdx : List Nat
  facesCoord : Option (List Face)
deriving DecidableEq

/-- The reindex-and-assemble tail of select_bbox, as a function of the faces
returned by cut_region (accessor.py lines 131-137). -/
def bboxAssemble (cf : List Face) : SelResult :=
  { nodeIdx := reindexNodes cf, facesCoord := some (reindexFaces cf) }

/-- Outcome of select_region (accessor.py lines 168-193).  unchanged is the
early return of the untouched input object after the no-points warning (lines
169-171); noFaces is the return of the node subset without a faces coordinate
after the no-faces warning (lines 184-187), carrying the isel node index list;
subset is the normal return carrying the retained node indices and the
remapped faces coordinate (lines 179-193). -/
inductive RegionOutcome
  | unchanged
  | noFaces (nodeIdx : List Nat)
  | subset (nodeIdx : List Nat) (newFaces : List Face)
deriving DecidableEq

/-- Per-face test of selection[faces] followed by np.all(..., axis=1) (accessor.py
lines 173-174): a face passes iff the mask holds at all three of its nodes. -/
def selPred (mask : List Bool) (f : Face) : Bool :=
  mask.getD f.1 false && mask.getD f.2.1 false && mask.getD f.2.2 false

/-- Core of select_region from the computed containment mask on (accessor.py
lines 168-193): mask is the per-node boolean array produced by
shapely.vectorized.contains on the buffered region. -/
def selectRegionCore (mask : List Bool) (fs : List Face) : RegionOutcome :=
  if mask.countP id = 0 then
    RegionOutcome.unchanged
  else if (reindexNodes (fs.filter (selPred mask))).length = 0 then
    RegionOutcome.noFaces (reindexNodes (fs.filter (selPred mask)))
  else
    RegionOutcome.subset (reindexNodes (fs.filter (selPred mask)))
      (reindexFaces (fs.filter (selPred mask)))

/-- normalize_distance of accessor.py lines 60-78, on a 1-D distance array in
meters: scale to kilometers, and if more entries than len // 3 are below 1 km
report meters with the original array, else kilometers with the scaled array. -/
def normalize_distance (d : List ℚ) : String × List ℚ :=
  let dkm := d.map (fun x => x / 1000)
  if dkm.countP (fun x => decide (x < 1)) > d.length / 3 then ("m", d)
  else ("km", dkm)

/-- An axis-aligned bounding box (minlon, minlat, maxlon, maxlat), the shapely
box built at accessor.py line 148 from a 4-element region sequence. -/
structure Box where
  xmin : ℚ
  ymin : ℚ
  xmax : ℚ
  ymax : ℚ
deriving DecidableEq

/-- Buffer of accessor.py line 166: region.buffer(1e-6) with tolerance 1e-6
degrees. -/
def bufferTol : ℚ := 1 / 1000000

/-- Squared Euclidean distance from the point (x, y) to the solid rectangle b
in lon/lat coordinates. -/
def distSqToBox (b : Box) (x y : ℚ) : ℚ :=
  let dx := max (b.xmin - x) (max (x - b.xmax) 0)
  let dy := max (b.ymin - y) (max (y - b.ymax) 0)
  dx * dx + dy * dy

/-- Containment test of accessor.py lines 166-168 for a box region: shapely
contains of the interior of region.buffer(1e-6), i.e. distance to the box
strictly below the buffer tolerance.  The circular buffer is modelled exactly;
this agrees with shapely away from the box corners. -/
def inBufferedBox (b : Box) (x y : ℚ) : Bool :=
  decide (distSqToBox b x y < bufferTol * bufferTol)

/-- Containment in the unbuffered box itself.  This is the pre-buffer
containment predicate of the specification (the region before line 166 applies
the buffer), used to compare the spec wording with the code behavior. -/
def inBox (b : Box) (x y : ℚ) : Bool :=
  decide (b.xmin ≤ x ∧ x ≤ b.xmax ∧ b.ymin ≤ y ∧ y ≤ b.ymax)

/-- select_region for a box region, from node coordinates on: the mask is
shapely.vectorized.contains of the buffered box over the per-node lon and lat
arrays (accessor.py line 168), fed into the core of lines 169-193. -/
def select_region_box (lon lat : List ℚ) (fs : List Face) (b : Box) : RegionOutcome :=
  selectRegionCore (List.zipWith (fun x y => inBufferedBox b x y) lon lat) fs

/-- Modelled from the spec: cut_region of pyfesom2/ut.py, imported at
accessor.py line 119 but absent from src/.  Per the BoundingBoxCutter contract
of the spec, the cut is triangulation-aware and a face is kept only if all
three of its vertices satisfy the box bounds (strict full containment, no
buffer). -/
def cut_region_model (lon lat : List ℚ) (b : Box) (fs : List Face) : List Face :=
  fs.filter (fun f =>
    inBox b (lon.getD f.1 0) (lat.getD f.1 0) &&
      inBox b (lon.getD f.2.1 0) (lat.getD f.2.1 0) &&
        inBox b (lon.getD f.2.2 0) (lat.getD f.2.2 0))

/-- select_bbox for a box on a mesh (accessor.py lines 127-137): cut the faces
with the spec-modelled cut_region, then reindex and assemble the result. -/
def select_bbox_box (lon lat : List ℚ) (fs : List Face) (b : Box) : SelResult :=
  bboxAssemble (cut_region_model lon lat b fs)

/-- A polygon, carried opaquely as its ring coordinates; select_region never
inspects a Polygon argument before buffering, so the carrier is irrelevant to
the parsing logic of lines 147-153. -/
abbrev PolyRing := List (ℚ × ℚ)

/-- The possible Python values of the region argument of select_region: a
Sequence of floats, a shapely Polygon, or a shapely MultiPolygon.  A
MultiPolygon is neither a Sequence nor an instance of Polygon. -/
inductive RegionInput
  | seq (xs : List ℚ)
  | poly (p : PolyRing)
  | multiPoly (ps : List PolyRing)

/-- Region after the normalization of accessor.py lines 147-153: either the box
built from a 4-element sequence or the polygon passed through. -/
inductive ParsedRegion
  | boxRegion (b : Box)
  | polyRegion (p : PolyRing)
deriving DecidableEq

/-- Error message of accessor.py lines 152-153. -/
def unsupportedRegionMsg : String :=
  "Supplied region data can be a sequence of (minlon, minlat, maxlon, maxlat) or a Shapely Polygon. This region is not supported."

/-- The region-argument dispatch of select_region, accessor.py lines 147-153:
a Sequence of length 4 becomes a box, a Polygon is passed through, anything
else (including a MultiPolygon) raises ValueError. -/
def parseRegion : RegionInput → Except String ParsedRegion
  | RegionInput.seq xs =>
      if xs.length = 4 then
        Except.ok (ParsedRegion.boxRegion ⟨xs.getD 0 0, xs.getD 1 0, xs.getD 2 0, xs.getD 3 0⟩)
      else Except.error unsupportedRegionMsg
  | RegionInput.poly p => Except.ok (ParsedRegion.polyRegion p)
  | RegionInput.multiPoly _ => Except.error unsupportedRegionMsg

/-- faces = getattr(xr_obj, "faces", faces) of accessor.py lines 120 and 155:
the faces coordinate attached to the input object, when present, is used in
place of the explicitly passed argument. -/
def resolveFaces (objFaces argFaces : Option (List Face)) : Option (List Face) :=
  match objFaces with
  | some fs => some fs
  | none => argFaces

/-- Error message of accessor.py lines 122-125 and 157-160. -/
def missingFacesMsg : String :=
  "When passing a dataset it needs have faces in coords, or faces need to be passed explicitly. When passing a data array, argument faces cannot be None, faces must be indices of shape nelem by three that define triangles."

/-- select_bbox from the faces-resolution step on (accessor.py lines 120-137):
resolve faces from the object coordinate or the argument, fail when neither is
present, otherwise run cut_region (abstracted as cutRegion, a function of the
faces array with the mesh coordinates and the bbox fixed; its code lives in
pyfesom2/ut.py outside this module) and assemble the reindexed result. -/
def select_bbox_entry (objFaces argFaces : Option (List Face))
    (cutRegion : List Face → List Face) : Except String SelResult :=
  match resolveFaces objFaces argFaces with
  | none => Except.error missingFacesMsg
  | some fs => Except.ok (bboxAssemble (cutRegion fs))

/-- select_region from the faces-resolution step on (accessor.py lines
155-193), with the node containment mask of line 168 passed in (it is computed
from the object coordinates and the region only, independently of faces). -/
def select_region_entry (objFaces argFaces : Option (List Face))
    (mask : List Bool) : Except String RegionOutcome :=
  match resolveFaces objFaces argFaces with
  | none => Except.error missingFacesMsg
  | some fs => Except.ok (selectRegionCore mask fs)

/-- Routes a call to select (accessor.py lines 248-294) can take before the
final label selection: an immediately raised error, the select_points route,
the select_region route, the path route, or the plain fall-through. -/
inductive SelectRoute
  | confError (msg : String)
  | points
  | regionRoute
  | pathRoute
  | plain
deriving DecidableEq

/-- True exactly on the error route. -/
def SelectRoute.isConfError : SelectRoute → Bool
  | SelectRoute.confError _ => true
  | _ => false

/-- Error message of accessor.py line 262. -/
def conflictMsg : String :=
  "Only one option: lat, lon as indexer or path or region is supported"

/-- Error message of accessor.py lines 274-275. -/
def bothNeededMsg : String :=
  "Both lat, lon are needed as indexers, else use path, region arguments or the select points method."

/-- Error message of accessor.py line 272. -/
def notImplMsg : String :=
  "Only method nearest is currently supported."

/-- Argument dispatch of select, accessor.py lines 255-294: latGiven and
lonGiven record whether the lat and lon indexers are not None, regionGiven and
pathGiven whether region and path are not None.  The conflict check at line 260
fires only when a lat or lon indexer is present; with neither present, region
takes the elif branch at line 276 even when a path is also given. -/
def selectDispatch (lonGiven latGiven regionGiven pathGiven : Bool)
    (method : String) : SelectRoute :=
  if (latGiven || lonGiven) && (regionGiven || pathGiven) then
    SelectRoute.confError conflictMsg
  else if latGiven || lonGiven then
    if latGiven && lonGiven then
      if method = "nearest" then SelectRoute.points
      else SelectRoute.confError notImplMsg
    else SelectRoute.confError bothNeededMsg
  else if regionGiven then SelectRoute.regionRoute
  else if pathGiven then SelectRoute.pathRoute
  else SelectRoute.plain

end Pyfesom2

namespace Pyfesom2

-- Basic facts about sortedUnique and indexOf

theorem le_foldr_max {l : List Nat} {v : Nat} (h : v ∈ l) : v ≤ l.foldr max 0 := by
  induction l with
  | nil => cases h
  | cons a t ih =>
    rcases List.mem_cons.mp h with rfl | h
    · exact Nat.le_max_left _ _
    · exact le_trans (ih h) (Nat.le_max_right _ _)

theorem mem_sortedUnique {l : List Nat} {v : Nat} (h : v ∈ l) : v ∈ sortedUnique l :=
  List.mem_filter.mpr
    ⟨List.mem_range.mpr (Nat.lt_succ_of_le (le_foldr_max h)), decide_eq_true h⟩

theorem sortedUnique_sorted (l : List Nat) : List.Sorted (· < ·) (sortedUnique l) :=
  List.Pairwise.sublist (List.filter_sublist _) (List.pairwise_lt_range _)

theorem sortedUnique_nodup (l : List Nat) : (sortedUnique l).Nodup :=
  List.Nodup.filter _ (List.nodup_range _)

theorem getD_indexOf {l : List Nat} {v : Nat} (h : v ∈ l) :
    l.getD (l.indexOf v) 0 = v := by
  have hlt : l.indexOf v < l.length := List.indexOf_lt_length.mpr h
  rw [List.getD_eq_getElem l 0 hlt]
  exact List.indexOf_get hlt

theorem mem_facesFlat {cf : List Face} {f : Face} (h : f ∈ cf) :
    f.1 ∈ facesFlat cf ∧ f.2.1 ∈ facesFlat cf ∧ f.2.2 ∈ facesFlat cf := by
  induction cf with
  | nil => cases h
  | cons a t ih =>
    rcases List.mem_cons.mp h with rfl | h
    · simp [facesFlat]
    · have := ih h
      simp only [facesFlat, List.mem_cons]
      tauto

theorem reindex_valid (cf : List Face) :
    List.Sorted (· < ·) (reindexNodes cf) ∧ (reindexNodes cf).Nodup ∧
      ∀ f ∈ reindexFaces cf,
        f.1 < (reindexNodes cf).length ∧ f.2.1 < (reindexNodes cf).length ∧
          f.2.2 < (reindexNodes cf).length := by
  refine ⟨sortedUnique_sorted _, sortedUnique_nodup _, ?_⟩
  intro f hf
  rcases List.mem_map.mp hf with ⟨g, hg, rfl⟩
  obtain ⟨h1, h2, h3⟩ := mem_facesFlat hg
  refine ⟨?_, ?_, ?_⟩ <;>
    exact List.indexOf_lt_length.mpr (mem_sortedUnique (by assumption))

theorem decode_remap (cf : List Face) {g : Face} (hg : g ∈ cf) :
    decodeFace (reindexNodes cf) (remapFace (reindexNodes cf) g) = g := by
  obtain ⟨h1, h2, h3⟩ := mem_facesFlat hg
  unfold decodeFace remapFace
  refine Prod.ext ?_ (Prod.ext ?_ ?_) <;> simp only
  · exact getD_indexOf (mem_sortedUnique h1)
  · exact getD_indexOf (mem_sortedUnique h2)
  · exact getD_indexOf (mem_sortedUnique h3)

theorem reindexNodes_getD_indexOf {cf : List Face} {v : Nat} (h : v ∈ facesFlat cf) :
    (reindexNodes cf).getD ((reindexNodes cf).indexOf v) 0 = v :=
  getD_indexOf (mem_sortedUnique h)

theorem selectRegionCore_subset {mask : List Bool} {fs : List Face}
    {idx : List Nat} {nf : List Face}
    (h : selectRegionCore mask fs = RegionOutcome.subset idx nf) :
    idx = reindexNodes (fs.filter (selPred mask)) ∧
      nf = reindexFaces (fs.filter (selPred mask)) := by
  unfold selectRegionCore at h
  by_cases hc : mask.countP id = 0
  · rw [if_pos hc] at h; cases h
  · rw [if_neg hc] at h
    by_cases hu : (reindexNodes (fs.filter (selPred mask))).length = 0
    · rw [if_pos hu] at h; cases h
    · rw [if_neg hu] at h
      injection h with h1 h2
      exact ⟨h1.symm, h2.symm⟩

theorem reindexFaces_decoded_pred (q : Nat → Bool) (cf : List Face)
    (hq : ∀ g ∈ cf, q g.1 = true ∧ q g.2.1 = true ∧ q g.2.2 = true) :
    ∀ f ∈ reindexFaces cf,
      q ((reindexNodes cf).getD f.1 0) = true ∧
        q ((reindexNodes cf).getD f.2.1 0) = true ∧
          q ((reindexNodes cf).getD f.2.2 0) = true := by
  intro f hf
  rcases List.mem_map.mp hf with ⟨g, hg, rfl⟩
  obtain ⟨m1, m2, m3⟩ := mem_facesFlat hg
  obtain ⟨h1, h2, h3⟩ := hq g hg
  refine ⟨?_, ?_, ?_⟩
  · rw [show (remapFace (reindexNodes cf) g).1 = (reindexNodes cf).indexOf g.1 from rfl,
      reindexNodes_getD_indexOf m1]
    exact h1
  · rw [show (remapFace (reindexNodes cf) g).2.1 = (reindexNodes cf).indexOf g.2.1 from rfl,
      reindexNodes_getD_indexOf m2]
    exact h2
  · rw [show (remapFace (reindexNodes cf) g).2.2 = (reindexNodes cf).indexOf g.2.2 from rfl,
      reindexNodes_getD_indexOf m3]
    exact h3

theorem zipWith_getD_true {p : ℚ → ℚ → Bool} {lon lat : List ℚ} {i : Nat}
    (h : (List.zipWith p lon lat).getD i false = true) :
    p (lon.getD i 0) (lat.getD i 0) = true := by
  by_cases hi : i < (List.zipWith p lon lat).length
  · have hl : i < lon.length ∧ i < lat.length := by
      rw [List.length_zipWith] at hi
      omega
    rw [List.getD_eq_getElem _ _ hi, List.getElem_zipWith] at h
    rw [List.getD_eq_getElem _ _ hl.1, List.getD_eq_getElem _ _ hl.2]
    exact h
  · rw [List.getD_eq_default _ _ (Nat.le_of_not_lt hi)] at h
    cases h

-- Claim theorems

/-- C1: every result produced by select_bbox or select_region that carries a
faces coordinate has every coordinate entry a valid index into the result node
dimension, lying in [0, K) for K the number of retained nodes, and the
retained-node list (the np.unique output) is ascending and duplicate-free. -/
theorem select_result_faces_valid :
    (∀ cf : List Face,
        List.Sorted (· < ·) (bboxAssemble cf).nodeIdx ∧ (bboxAssemble cf).nodeIdx.Nodup ∧
          ∀ f ∈ (bboxAssemble cf).facesCoord.getD [],
            f.1 < (bboxAssemble cf).nodeIdx.length ∧
              f.2.1 < (bboxAssemble cf).nodeIdx.length ∧
                f.2.2 < (bboxAssemble cf).nodeIdx.length) ∧
      (∀ (mask : List Bool) (fs : List Face) (idx : List Nat) (nf : List Face),
          selectRegionCore mask fs = RegionOutcome.subset idx nf →
            List.Sorted (· < ·) idx ∧ idx.Nodup ∧
              ∀ f ∈ nf, f.1 < idx.length ∧ f.2.1 < idx.length ∧ f.2.2 < idx.length) := by
  constructor
  · intro cf
    simpa [bboxAssemble] using reindex_valid cf
  · intro mask fs idx nf h
    obtain ⟨hidx, hnf⟩ := selectRegionCore_subset h
    subst hidx
    subst hnf
    exact reindex_valid _

/-- Witness for C1: the select_region branch instantiated on a concrete mask
and faces array. -/
theorem select_result_faces_valid_witness :
    List.Sorted (· < ·) ([0, 1, 2] : List Nat) ∧ ([0, 1, 2] : List Nat).Nodup ∧
      ∀ f ∈ ([(0, 1, 2)] : List Face),
        f.1 < ([0, 1, 2] : List Nat).length ∧ f.2.1 < ([0, 1, 2] : List Nat).length ∧
          f.2.2 < ([0, 1, 2] : List Nat).length :=
  select_result_faces_valid.2 [true, true, true] [(0, 1, 2)] [0, 1, 2] [(0, 1, 2)] (by decide)

/-- C2: the face reindexing step round-trips — decoding the remapped faces
through the sorted unique node list reproduces the original face array
element-wise, with identical shape, for every input face array. -/
theorem face_reindex_roundtrip (cf : List Face) :
    (reindexFaces cf).length = cf.length ∧
      (reindexFaces cf).map (decodeFace (reindexNodes cf)) = cf := by
  constructor
  · simp [reindexFaces]
  · rw [reindexFaces, List.map_map]
    calc cf.map (decodeFace (reindexNodes cf) ∘ remapFace (reindexNodes cf))
        = cf.map id := List.map_congr_left (fun g hg => decode_remap cf hg)
      _ = cf := List.map_id cf

/-- Box for the C3 counterexample. -/
def boxCEx : Box := ⟨0, 0, 1, 1⟩

/-- Node longitudes for the C3 counterexample; node 2 lies 5e-7 degrees east of
the box, inside the 1e-6 buffer but outside the box itself. -/
def lonCEx : List ℚ := [1 / 2, 1 / 4, 1 + 1 / 2000000]

/-- Node latitudes for the C3 counterexample. -/
def latCEx : List ℚ := [1 / 2, 1 / 2, 1 / 2]

/-- C3 counterexample: select_region retains the face (0, 1, 2) on this mesh
although vertex 2 fails the pre-buffer containment test, so retained vertices
need not satisfy the original containment predicate in pre-buffer coordinates. -/
theorem region_prebuffer_cex :
    select_region_box lonCEx latCEx [(0, 1, 2)] boxCEx =
        RegionOutcome.subset [0, 1, 2] [(0, 1, 2)] ∧
      inBox boxCEx (lonCEx.getD 2 0) (latCEx.getD 2 0) = false := by
  have hmask :
      List.zipWith (fun x y => inBufferedBox boxCEx x y) lonCEx latCEx =
        [true, true, true] := by
    simp only [lonCEx, latCEx, List.zipWith]
    norm_num [inBufferedBox, distSqToBox, bufferTol, boxCEx, max_def]
  constructor
  · rw [select_region_box, hmask]
    decide
  · simp only [lonCEx, latCEx, List.getD_cons_succ, List.getD_cons_zero]
    norm_num [inBox, boxCEx]

/-- C3 amended: every face retained by select_bbox has, through the
retained-node list, all three vertices satisfying the pre-buffer box
containment (cut_region, modelled from the spec, keeps only such faces),
while every face retained by select_region has all three vertices satisfying
the buffered containment test (strictly within 1e-6 degrees of the region);
for select_region the pre-buffer predicate can fail on a retained vertex, as
region_prebuffer_cex shows. -/
theorem retained_faces_containment :
    (∀ (lon lat : List ℚ) (b : Box) (fs : List Face),
        ∀ f ∈ (select_bbox_box lon lat fs b).facesCoord.getD [],
          inBox b (lon.getD ((select_bbox_box lon lat fs b).nodeIdx.getD f.1 0) 0)
              (lat.getD ((select_bbox_box lon lat fs b).nodeIdx.getD f.1 0) 0) = true ∧
            inBox b (lon.getD ((select_bbox_box lon lat fs b).nodeIdx.getD f.2.1 0) 0)
                (lat.getD ((select_bbox_box lon lat fs b).nodeIdx.getD f.2.1 0) 0) = true ∧
              inBox b (lon.getD ((select_bbox_box lon lat fs b).nodeIdx.getD f.2.2 0) 0)
                  (lat.getD ((select_bbox_box lon lat fs b).nodeIdx.getD f.2.2 0) 0) = true) ∧
      (∀ (lon lat : List ℚ) (b : Box) (fs : List Face) (idx : List Nat) (nf : List Face),
          select_region_box lon lat fs b = RegionOutcome.subset idx nf →
            ∀ f ∈ nf,
              inBufferedBox b (lon.getD (idx.getD f.1 0) 0)
                  (lat.getD (idx.getD f.1 0) 0) = true ∧
                inBufferedBox b (lon.getD (idx.getD f.2.1 0) 0)
                    (lat.getD (idx.getD f.2.1 0) 0) = true ∧
                  inBufferedBox b (lon.getD (idx.getD f.2.2 0) 0)
                      (lat.getD (idx.getD f.2.2 0) 0) = true) := by
  constructor
  · intro lon lat b fs f hf
    refine reindexFaces_decoded_pred (fun i => inBox b (lon.getD i 0) (lat.getD i 0))
        (cut_region_model lon lat b fs) ?_ f hf
    intro g hg
    have hpred := (List.mem_filter.mp hg).2
    simp only [Bool.and_eq_true] at hpred
    exact ⟨hpred.1.1, hpred.1.2, hpred.2⟩
  · intro lon lat b fs idx nf h f hf
    obtain ⟨hidx, hnf⟩ := selectRegionCore_subset h
    subst hidx
    subst hnf
    refine reindexFaces_decoded_pred (fun i => inBufferedBox b (lon.getD i 0) (lat.getD i 0))
        _ ?_ f hf
    intro g hg
    have hpred := (List.mem_filter.mp hg).2
    rw [selPred] at hpred
    simp only [Bool.and_eq_true] at hpred
    exact ⟨zipWith_getD_true hpred.1.1, zipWith_getD_true hpred.1.2,
      zipWith_getD_true hpred.2⟩

/-- Witness for the amended C3: a triangle inside a large box is retained by
select_bbox with all vertices inside the pre-buffer box, and by select_region
with all vertices inside the buffered box, instantiated at the single
retained face. -/
theorem retained_faces_containment_witness :
    (inBox ⟨-1, -1, 2, 2⟩ 0 0 = true ∧ inBox ⟨-1, -1, 2, 2⟩ 1 0 = true ∧
        inBox ⟨-1, -1, 2, 2⟩ 0 1 = true) ∧
      (inBufferedBox ⟨-1, -1, 2, 2⟩ 0 0 = true ∧ inBufferedBox ⟨-1, -1, 2, 2⟩ 1 0 = true ∧
          inBufferedBox ⟨-1, -1, 2, 2⟩ 0 1 = true) := by
  have hcut :
      cut_region_model [0, 1, 0] [0, 0, 1] ⟨-1, -1, 2, 2⟩ [(0, 1, 2)] = [(0, 1, 2)] := by
    simp only [cut_region_model, List.filter_cons, List.filter_nil, List.getD_cons_zero,
      List.getD_cons_succ]
    norm_num [inBox]
  have hsel : select_bbox_box [0, 1, 0] [0, 0, 1] [(0, 1, 2)] ⟨-1, -1, 2, 2⟩ =
      { nodeIdx := [0, 1, 2], facesCoord := some [(0, 1, 2)] } := by
    rw [select_bbox_box, hcut]
    decide
  constructor
  · have h1 := retained_faces_containment.1 [0, 1, 0] [0, 0, 1] ⟨-1, -1, 2, 2⟩ [(0, 1, 2)]
        (0, 1, 2) (by rw [hsel]; decide)
    rw [hsel] at h1
    simpa using h1
  · have hmask :
        List.zipWith (fun x y => inBufferedBox ⟨-1, -1, 2, 2⟩ x y)
            ([0, 1, 0] : List ℚ) ([0, 0, 1] : List ℚ) = [true, true, true] := by
      simp only [List.zipWith]
      norm_num [inBufferedBox, distSqToBox, bufferTol, max_def]
    have h2 := retained_faces_containment.2 [0, 1, 0] [0, 0, 1] ⟨-1, -1, 2, 2⟩ [(0, 1, 2)]
        [0, 1, 2] [(0, 1, 2)] (by rw [select_region_box, hmask]; decide) (0, 1, 2) (by decide)
    simpa using h2

/-- C4 counterexample: a select call passing both a region and a path with no
lon or lat indexer is not rejected; the dispatcher routes it to region
selection instead of raising a configuration conflict. -/
theorem region_path_no_conflict_cex :
    selectDispatch false false true true "nearest" = SelectRoute.regionRoute ∧
      (selectDispatch false false true true "nearest").isConfError = false :=
  ⟨rfl, rfl⟩

/-- C4 amended: a call passing both region and path without lon or lat
indexers is accepted; the region branch wins and the path argument is silently
ignored, for every method string. -/
theorem region_path_region_wins (method : String) :
    selectDispatch false false true true method = SelectRoute.regionRoute := rfl

/-- C5 counterexample: a concrete MultiPolygon region is rejected by
select_region with the unsupported-region ValueError rather than selected
from. -/
theorem region_multipolygon_cex :
    parseRegion (RegionInput.multiPoly [[(0, 0), (1, 0), (0, 1)]]) =
      Except.error unsupportedRegionMsg := rfl

/-- C5 amended: select_region accepts a 4-element sequence, converted to the
corresponding box, and a single Polygon, passed through; every MultiPolygon
argument is rejected with the unsupported-region ValueError. -/
theorem region_input_dispatch (p : PolyRing) (ps : List PolyRing) (a b c d : ℚ) :
    parseRegion (RegionInput.poly p) = Except.ok (ParsedRegion.polyRegion p) ∧
      parseRegion (RegionInput.seq [a, b, c, d]) =
          Except.ok (ParsedRegion.boxRegion ⟨a, b, c, d⟩) ∧
        parseRegion (RegionInput.multiPoly ps) = Except.error unsupportedRegionMsg :=
  ⟨rfl, rfl, rfl⟩

/-- C6: when at least one node passes the containment mask but no face has all
three vertices passing, select_region takes the no-faces warning branch and
returns the node-subset result (here the empty retained-node selection) with
no faces coordinate present at all. -/
theorem region_no_faces_outcome (mask : List Bool) (fs : List Face)
    (h1 : true ∈ mask)
    (h2 : ∀ f ∈ fs, selPred mask f = false) :
    selectRegionCore mask fs = RegionOutcome.noFaces [] := by
  have hcut : fs.filter (selPred mask) = [] := by
    rw [List.filter_eq_nil_iff]
    intro f hf
    simp [h2 f hf]
  have hcount : mask.countP id ≠ 0 := by
    intro hc
    have := List.countP_eq_zero.mp hc _ h1
    simp at this
  unfold selectRegionCore
  rw [if_neg hcount, hcut]
  decide

/-- Witness for C6: the first node passes the mask but the only face does not. -/
theorem region_no_faces_outcome_witness :
    selectRegionCore [true, false] [(0, 1, 1)] = RegionOutcome.noFaces [] :=
  region_no_faces_outcome [true, false] [(0, 1, 1)] (by decide) (by decide)

/-- C7: when no node passes the containment mask, select_region takes the
empty-selection warning branch and returns the input object itself unchanged. -/
theorem region_empty_unchanged (mask : List Bool) (fs : List Face)
    (h : ∀ x ∈ mask, x = false) :
    selectRegionCore mask fs = RegionOutcome.unchanged := by
  have hcount : mask.countP id = 0 := by
    rw [List.countP_eq_zero]
    intro x hx
    simp [h x hx]
  unfold selectRegionCore
  rw [if_pos hcount]

/-- Witness for C7: an all-false mask leaves the input unchanged. -/
theorem region_empty_unchanged_witness :
    selectRegionCore [false, false] [(0, 1, 1)] = RegionOutcome.unchanged :=
  region_empty_unchanged [false, false] [(0, 1, 1)] (by decide)

/-- C8: select rejects a lon indexer together with a region, rejects a lon
indexer without a lat indexer and a lat indexer without a lon indexer, and
routes lon plus lat with method nearest to nearest-node point selection. -/
theorem dispatcher_rules (latB pathB : Bool) (method : String) :
    selectDispatch true latB true pathB method = SelectRoute.confError conflictMsg ∧
      selectDispatch true false false false method = SelectRoute.confError bothNeededMsg ∧
        selectDispatch false true false false method = SelectRoute.confError bothNeededMsg ∧
          selectDispatch true true false false "nearest" = SelectRoute.points := by
  refine ⟨?_, rfl, rfl, rfl⟩
  cases latB <;> rfl

/-- C9: normalize_distance reports meters with the original array exactly when
more than one third of the entries scale below 1 km, else kilometers with the
scaled array; in particular [500, 500, 500] m stays in meters and
[5000, 5000, 5000] m becomes [5, 5, 5] km. -/
theorem normalize_distance_spec (d : List ℚ) :
    (if d.length < 3 * ((d.map (fun x => x / 1000)).countP (fun x => decide (x < 1))) then
        normalize_distance d = ("m", d)
      else normalize_distance d = ("km", d.map (fun x => x / 1000))) ∧
      normalize_distance [500, 500, 500] = ("m", [500, 500, 500]) ∧
        normalize_distance [5000, 5000, 5000] = ("km", [5, 5, 5]) := by
  refine ⟨?_, ?_, ?_⟩
  · have hiff :
        (d.map (fun x => x / 1000)).countP (fun x => decide (x < 1)) > d.length / 3 ↔
          d.length < 3 * ((d.map (fun x => x / 1000)).countP (fun x => decide (x < 1))) := by
      rw [gt_iff_lt, Nat.div_lt_iff_lt_mul (by norm_num), Nat.mul_comm]
    unfold normalize_distance
    split
    · rename_i hc
      rw [if_pos (hiff.mpr hc)]
    · rename_i hc
      rw [if_neg (fun hpos => hc (hiff.mp hpos))]
  · norm_num [normalize_distance, List.countP, List.countP.go]
  · norm_num [normalize_distance, List.countP, List.countP.go]

/-- C10: a faces coordinate attached to the input object takes precedence over
the explicitly passed faces argument, in select_bbox and select_region alike:
with an attached coordinate present the result does not depend on the value of
the argument. -/
theorem attached_faces_precedence (fs : List Face) (a b : Option (List Face))
    (cutRegion : List Face → List Face) (mask : List Bool) :
    select_bbox_entry (some fs) a cutRegion = select_bbox_entry (some fs) b cutRegion ∧
      select_region_entry (some fs) a mask = select_region_entry (some fs) b mask :=
  ⟨rfl, rfl⟩

end Pyfesom2
